import Mathlib

/-!
Shallow embedding of the SimApp PV simulator (src/calculations.py and
src/app.py, repository harshalwadile75/SimApp), together with theorems
settling the specification claims about it.  Machine floating point is
modelled by the real numbers; Python's exception channel, where a claim is
about it, is modelled with Option.
-/

namespace SimApp

noncomputable section

/-- Embedding of Python `math.radians`. -/
def deg2rad (x : ℝ) : ℝ := x * Real.pi / 180

/-- Embedding of Python `math.degrees`. -/
def rad2deg (x : ℝ) : ℝ := x * 180 / Real.pi

lemma rad2deg_deg2rad (x : ℝ) : rad2deg (deg2rad x) = x := by
  unfold rad2deg deg2rad
  field_simp

/-- Embedding of Python `math.atan2 y x` (quadrant-correct arctangent). -/
def atan2 (y x : ℝ) : ℝ :=
  if 0 < x then Real.arctan (y / x)
  else if x < 0 then
    (if 0 ≤ y then Real.arctan (y / x) + Real.pi else Real.arctan (y / x) - Real.pi)
  else
    (if 0 < y then Real.pi / 2 else if y < 0 then -(Real.pi / 2) else 0)

/-- The dictionary returned by `calculate_solar_position`
(src/calculations.py lines 80-84); all angles in degrees. -/
structure SolarPos where
  elevation : ℝ
  azimuth : ℝ
  declination : ℝ

/-- `PVSystemCalculator.calculate_solar_position` (src/calculations.py lines
42-84).  `hour` is the decimal hour `datetime_obj.hour + datetime_obj.minute/60`
and `day_of_year` is `datetime_obj.timetuple().tm_yday`.  The result is wrapped
in `Option`, modelling Python's exception channel: the source performs no
input validation and no operation that can raise (the arcsine argument is a
combination of sines and cosines bounded by 1), so the result is always
`some`.  The `longitude` parameter is accepted and unused, as in the source. -/
def calculate_solar_position (latitude longitude : ℝ) (day_of_year : ℕ)
    (hour : ℝ) : Option SolarPos :=
  let lat_rad := deg2rad latitude
  let declination := deg2rad (23.45 * Real.sin (deg2rad (360 * (284 + (day_of_year : ℝ)) / 365)))
  let hour_angle := deg2rad (15 * (hour - 12))
  let elevation := Real.arcsin (Real.sin declination * Real.sin lat_rad +
    Real.cos declination * Real.cos lat_rad * Real.cos hour_angle)
  let azimuth := atan2 (Real.sin hour_angle)
    (Real.cos hour_angle * Real.sin lat_rad - Real.tan declination * Real.cos lat_rad)
  some { elevation := rad2deg elevation
         azimuth := rad2deg azimuth + 180
         declination := rad2deg declination }

/-- The local variable `cos_incidence` of
`calculate_irradiance_on_tilted_surface` (src/calculations.py lines 111-115),
before the floor of line 118. -/
def cos_incidence (solar_elevation solar_azimuth surface_tilt surface_azimuth : ℝ) : ℝ :=
  Real.sin (deg2rad solar_elevation) * Real.cos (deg2rad surface_tilt) +
    Real.cos (deg2rad solar_elevation) * Real.sin (deg2rad surface_tilt) *
      Real.cos (deg2rad solar_azimuth - deg2rad surface_azimuth)

/-- The local variable `direct_tilted` (src/calculations.py line 121): the
beam component, computed from the cosine of incidence floored at 0
(line 118). -/
def direct_tilted (dni solar_elevation solar_azimuth surface_tilt surface_azimuth : ℝ) : ℝ :=
  dni * max (cos_incidence solar_elevation solar_azimuth surface_tilt surface_azimuth) 0

/-- The local variable `diffuse_tilted` (src/calculations.py line 124),
isotropic sky model. -/
def diffuse_tilted (dhi surface_tilt : ℝ) : ℝ :=
  dhi * (1 + Real.cos (deg2rad surface_tilt)) / 2

/-- The local variable `ground_reflected` (src/calculations.py lines 127-128),
with albedo fixed at 0.2. -/
def ground_reflected (ghi surface_tilt : ℝ) : ℝ :=
  ghi * 0.2 * (1 - Real.cos (deg2rad surface_tilt)) / 2

/-- `PVSystemCalculator.calculate_irradiance_on_tilted_surface`
(src/calculations.py lines 86-133). -/
def calculate_irradiance_on_tilted_surface (ghi dni dhi solar_elevation solar_azimuth
    surface_tilt surface_azimuth : ℝ) : ℝ :=
  max (direct_tilted dni solar_elevation solar_azimuth surface_tilt surface_azimuth +
    diffuse_tilted dhi surface_tilt + ground_reflected ghi surface_tilt) 0

/-- The `TEMP_COEFFICIENTS` dictionary (src/calculations.py lines 34-40),
as an association list. -/
def TEMP_COEFFICIENTS : List (String × ℝ) :=
  [("monocrystalline", -0.004), ("polycrystalline", -0.004), ("thin_film", -0.002),
   ("perc", -0.0037), ("bifacial", -0.0035)]

/-- `PVSystemCalculator.calculate_temperature_effect` (src/calculations.py
lines 135-158): NOCT cell-temperature model with `noct = 45` hard-coded at
line 149, and coefficient lookup `TEMP_COEFFICIENTS.get(module_type, -0.004)`
at line 153. -/
def calculate_temperature_effect (ambient_temp irradiance : ℝ) (module_type : String) : ℝ :=
  let noct : ℝ := 45
  let module_temp := ambient_temp + (noct - 20) * irradiance / 800
  let temp_coeff := (TEMP_COEFFICIENTS.lookup module_type).getD (-0.004)
  1 + temp_coeff * (module_temp - 25)

/-- `PVSystemCalculator.calculate_dc_power` (src/calculations.py lines
160-185).  `STANDARD_CONDITIONS['irradiance']` is 1000.  The `efficiency`
parameter is accepted and unused, as in the source. -/
def calculate_dc_power (irradiance temperature panel_power efficiency : ℝ)
    (module_type : String) : ℝ :=
  let irradiance_factor := irradiance / 1000
  let temp_correction := calculate_temperature_effect temperature irradiance module_type
  max (panel_power * irradiance_factor * temp_correction) 0

/-- The default loss-factor dictionary of `calculate_system_losses`
(src/calculations.py lines 198-207), as an association list. -/
def default_loss_factors : List (String × ℝ) :=
  [("inverter_efficiency", 0.96), ("dc_wiring_loss", 0.02), ("ac_wiring_loss", 0.01),
   ("soiling_loss", 0.02), ("shading_loss", 0.03), ("mismatch_loss", 0.02),
   ("availability_loss", 0.01)]

/-- `PVSystemCalculator.calculate_system_losses` (src/calculations.py lines
187-225).  The dictionary is an association list; each `loss_factors[key]`
subscript is a lookup whose failure (Python `KeyError`) is modelled by the
`Option.bind` chain returning `none`.  Keys other than the seven accessed
ones are never consulted by the source. -/
def calculate_system_losses (dc_power : ℝ) (loss_factors : Option (List (String × ℝ))) :
    Option ℝ :=
  let lf := loss_factors.getD default_loss_factors
  (lf.lookup "dc_wiring_loss").bind fun dcw =>
  (lf.lookup "soiling_loss").bind fun soil =>
  (lf.lookup "shading_loss").bind fun shade =>
  (lf.lookup "mismatch_loss").bind fun mismatch =>
  (lf.lookup "inverter_efficiency").bind fun invEff =>
  (lf.lookup "ac_wiring_loss").bind fun acw =>
  (lf.lookup "availability_loss").bind fun avail =>
  some (max (dc_power * (1 - dcw) * (1 - soil) * (1 - shade) * (1 - mismatch) *
    invEff * (1 - acw) * (1 - avail)) 0)

/-! Embedding of the simulation loop `generate_enhanced_data` of src/app.py
(lines 166-315).  The function's explicit arguments together with the
closure variables it captures from `main` (`total_stored_energy`,
`temp_coeff`, `dc_wiring_loss`, `module_mismatch`, `soiling_loss`,
`converter_efficiency`, `load_profile`) are gathered in `SimParams`.
NumPy's seeded generator is modelled by two realized draw streams
`nrm uni : ℕ → ℝ` (the values produced by `np.random.normal(0, 1.5)` and
`np.random.uniform(0.7, 1.0)` under seed 42) consumed through one shared
position counter, since the source draws from a single sequential
generator; `np.random.seed(42)` at the top of the function resets that
counter to 0, discarding whatever position the process-global generator
had before the call. -/

/-- The inputs of `generate_enhanced_data`: its parameters (`batt_capacity`
is accepted and unused by the source, which reads the closure variable
`total_stored_energy` instead) and the closure variables it reads. -/
structure SimParams where
  lat : ℝ
  tilt : ℝ
  azimuth : ℝ
  total_pwr : ℝ
  daily_need : ℝ
  batt_enabled : Bool
  batt_capacity : ℝ
  min_soc_pct : ℝ
  max_soc_pct : ℝ
  total_stored_energy : ℝ
  temp_coeff : ℝ
  dc_wiring_loss : ℝ
  module_mismatch : ℝ
  soiling_loss : ℝ
  converter_efficiency : ℝ
  load_profile : String

/-- One row of the generated data frame (src/app.py lines 300-313). -/
structure SimRecord where
  day : ℕ
  hour : ℕ
  temperature : ℝ
  irradiance : ℝ
  pv_power : ℝ
  load_power : ℝ
  energy_supplied : ℝ
  missing_energy : ℝ
  excess_energy : ℝ
  battery_soc : ℝ
  battery_charge : ℝ
  battery_discharge : ℝ

/-- Loop state across hours: battery state of charge, the position of the
seeded random stream, and the rows appended so far. -/
structure SimState where
  soc : ℝ
  idx : ℕ
  recs : List SimRecord

/-- Python `round(x, 1)` (a real model; float ties are immaterial to the
claims). -/
def round1 (x : ℝ) : ℝ := ((round (10 * x) : ℤ) : ℝ) / 10

lemma round1_zero : round1 0 = 0 := by
  simp [round1]

/-- `day_angle = 2 * math.pi * day / 365` (src/app.py line 183). -/
def day_angle (day : ℕ) : ℝ := 2 * Real.pi * (day : ℝ) / 365

/-- `temp_base` (src/app.py line 184). -/
def app_temp_base (day : ℕ) : ℝ := 15 + 15 * Real.sin (day_angle day - Real.pi / 2)

/-- In-loop `declination` in degrees (src/app.py line 185). -/
def app_declination (day : ℕ) : ℝ := 23.45 * Real.sin (day_angle day - Real.pi / 2)

/-- In-loop solar `elevation` in radians (src/app.py lines 200-205). -/
def app_elevation (lat declination : ℝ) (hour : ℕ) : ℝ :=
  Real.arcsin (Real.sin (deg2rad lat) * Real.sin (deg2rad declination) +
    Real.cos (deg2rad lat) * Real.cos (deg2rad declination) *
      Real.cos (deg2rad (15 * ((hour : ℝ) - 12))))

/-- The hourly irradiance computation (src/app.py lines 197-228), returning
the irradiance and the advanced stream position (one uniform weather-factor
draw happens exactly when `5 <= hour <= 19` and the elevation is positive). -/
def app_irradiance (p : SimParams) (uni : ℕ → ℝ) (declination : ℝ) (hour : ℕ)
    (idx : ℕ) : ℝ × ℕ :=
  if 5 ≤ hour ∧ hour ≤ 19 then
    if 0 < app_elevation p.lat declination hour then
      let elevation := app_elevation p.lat declination hour
      let air_mass := 1 / Real.sin elevation
      let dni := if air_mass < 10 then 900 * Real.exp (-0.357 * air_mass ^ (0.678 : ℝ)) else 0
      let dhi := 100 + 50 * Real.sin elevation
      let ghi := dni * Real.sin elevation + dhi
      let panel_elevation := elevation + deg2rad p.tilt
      let azimuth_factor := Real.cos (deg2rad (p.azimuth - 180))
      let irr := ghi * (Real.sin panel_elevation / Real.sin elevation) * azimuth_factor
      (max 0 irr * uni idx, idx + 1)
    else (0, idx)
  else (0, idx)

/-- The hourly PV power computation with temperature derating and losses
(src/app.py lines 230-247). -/
def app_pv_power (p : SimParams) (irradiance temp : ℝ) : ℝ :=
  if 0 < irradiance then
    max 0 (p.total_pwr * 1000 * (irradiance / 1000) *
      (1 + p.temp_coeff * (temp - 25) / 100) *
      (1 - p.dc_wiring_loss / 100) * (1 - p.module_mismatch / 100) *
      (1 - p.soiling_loss / 100) * (p.converter_efficiency / 100))
  else 0

/-- The per-profile load factor tables (src/app.py lines 251-252, 255-256). -/
def residential_load_factors : List ℝ :=
  [0.6, 0.5, 0.5, 0.5, 0.7, 0.8, 1.0, 1.2, 1.0, 0.8, 0.7, 0.8,
   0.9, 0.8, 0.7, 0.8, 1.0, 1.4, 1.6, 1.5, 1.3, 1.2, 1.0, 0.8]

/-- Commercial load factor table (src/app.py lines 255-256). -/
def commercial_load_factors : List ℝ :=
  [0.3, 0.3, 0.3, 0.3, 0.4, 0.6, 0.8, 1.0, 1.2, 1.3, 1.2, 1.1,
   1.0, 1.1, 1.2, 1.3, 1.2, 1.0, 0.8, 0.6, 0.4, 0.3, 0.3, 0.3]

/-- The hourly load (src/app.py lines 249-259); `hour` is always below 24, so
the list subscript is modelled with `getD`. -/
def app_load_power (p : SimParams) (hour : ℕ) : ℝ :=
  let daily_load := p.daily_need * 1000 / 24
  if p.load_profile = "Residential" then daily_load * residential_load_factors.getD hour 0
  else if p.load_profile = "Commercial" then daily_load * commercial_load_factors.getD hour 0
  else daily_load

/-- Outcome of the hourly battery block before self-discharge. -/
structure BatteryOutcome where
  soc : ℝ
  charge_power : ℝ
  discharge_power : ℝ
  excess_energy : ℝ

/-- The battery charge/discharge block (src/app.py lines 263-283), for the
battery-enabled case. -/
def battery_update (battery_kwh min_soc_frac max_soc_frac soc energy_balance : ℝ) :
    BatteryOutcome :=
  if 0 < energy_balance then
    if soc < max_soc_frac then
      let charge_power := min energy_balance (battery_kwh * 1000 * 0.2)
      { soc := min (soc + charge_power / (battery_kwh * 1000) * 0.9) max_soc_frac
        charge_power := charge_power
        discharge_power := 0
        excess_energy := max 0 (energy_balance - charge_power) }
    else
      { soc := soc, charge_power := 0, discharge_power := 0
        excess_energy := max 0 (energy_balance - 0) }
  else
    if min_soc_frac < soc then
      let discharge_power := min (min |energy_balance| (battery_kwh * 1000 * 0.2))
        (battery_kwh * 1000 * (soc - min_soc_frac))
      { soc := soc - discharge_power / (battery_kwh * 1000)
        charge_power := 0
        discharge_power := discharge_power
        excess_energy := 0 }
    else
      { soc := soc, charge_power := 0, discharge_power := 0, excess_energy := 0 }

/-- One hour of the loop body of `generate_enhanced_data` (src/app.py lines
192-313): temperature draw, irradiance, PV power, load, battery balance and
the appended row.  The per-day accumulators (`daily_energy_produced` etc.,
lines 187-190, 297-298) are written by the source but never read into the
output and are omitted. -/
def hourStep (p : SimParams) (nrm uni : ℕ → ℝ) (battery_kwh : ℝ) (day : ℕ)
    (temp_base declination : ℝ) (hour : ℕ) (st : SimState) : SimState :=
  let hour_angle := 2 * Real.pi * ((hour : ℝ) - 6) / 24
  let temp := temp_base + 8 * Real.sin hour_angle + nrm st.idx
  let i1 := st.idx + 1
  let ir := app_irradiance p uni declination hour i1
  let irradiance := ir.1
  let pv_power := app_pv_power p irradiance temp
  let load_power := app_load_power p hour
  if p.batt_enabled then
    let outcome := battery_update battery_kwh (p.min_soc_pct / 100) (p.max_soc_pct / 100)
      st.soc (pv_power - load_power)
    let soc := outcome.soc * 0.999
    let energy_supplied := min load_power (pv_power + outcome.discharge_power)
    let missing_energy := max 0 (load_power - energy_supplied)
    let row : SimRecord :=
      { day := day + 1, hour := hour, temperature := round1 temp
        irradiance := round1 irradiance, pv_power := round1 pv_power
        load_power := round1 load_power, energy_supplied := round1 energy_supplied
        missing_energy := round1 missing_energy
        excess_energy := round1 outcome.excess_energy
        battery_soc := round1 (soc * 100)
        battery_charge := round1 outcome.charge_power
        battery_discharge := round1 outcome.discharge_power }
    { soc := soc, idx := ir.2, recs := st.recs ++ [row] }
  else
    let energy_supplied := min load_power pv_power
    let missing_energy := max 0 (load_power - pv_power)
    let excess_energy := max 0 (pv_power - load_power)
    let row : SimRecord :=
      { day := day + 1, hour := hour, temperature := round1 temp
        irradiance := round1 irradiance, pv_power := round1 pv_power
        load_power := round1 load_power, energy_supplied := round1 energy_supplied
        missing_energy := round1 missing_energy, excess_energy := round1 excess_energy
        battery_soc := round1 (st.soc * 100)
        battery_charge := round1 0, battery_discharge := round1 0 }
    { soc := st.soc, idx := ir.2, recs := st.recs ++ [row] }

/-- One day of the loop (src/app.py lines 181-313): the seasonal values are
computed once per day and the 24 hours are folded in order. -/
def dayStep (p : SimParams) (nrm uni : ℕ → ℝ) (battery_kwh : ℝ) (st : SimState)
    (day : ℕ) : SimState :=
  (List.range 24).foldl
    (fun s hour => hourStep p nrm uni battery_kwh day (app_temp_base day)
      (app_declination day) hour s) st

/-- `generate_enhanced_data` (src/app.py lines 166-315).  `np.random.seed(42)`
(line 169) resets the global generator, so the incoming stream position
`rng0` is discarded and the draw counter restarts at 0; the battery starts at
80% SOC when enabled (lines 172-177); the days are folded in order and the
ordered row list is returned. -/
def generate_enhanced_data (p : SimParams) (days : ℕ) (nrm uni : ℕ → ℝ)
    (rng0 : ℕ) : List SimRecord :=
  let _ := rng0
  let soc0 : ℝ := if p.batt_enabled then 0.8 else 0
  let battery_kwh := if p.batt_enabled then p.total_stored_energy else 0
  ((List.range days).foldl (dayStep p nrm uni battery_kwh)
    { soc := soc0, idx := 0, recs := [] }).recs

/-- `specific_production` (src/app.py line 332): guarded division that
silently yields 0 when `total_power` is not positive. -/
def specific_production (total_pv_energy total_power : ℝ) : ℝ :=
  if 0 < total_power then total_pv_energy / total_power else 0

/-- `capacity_factor` (src/app.py line 333): an unguarded float division.
`Option` models Python's exception channel: `none` is the
`ZeroDivisionError` raised when the divisor is zero. -/
def capacity_factor (total_pv_energy total_power : ℝ) (analysis_days : ℕ) : Option ℝ :=
  if total_power * 24 * (analysis_days : ℝ) = 0 then none
  else some (total_pv_energy / (total_power * 24 * (analysis_days : ℝ)) * 100)

end

end SimApp

noncomputable section

lemma deg2rad_rad2deg (x : ℝ) : SimApp.deg2rad (SimApp.rad2deg x) = x := by
  unfold SimApp.deg2rad SimApp.rad2deg
  field_simp

lemma rad2deg_arcsin_le (A : ℝ) : SimApp.rad2deg (Real.arcsin A) ≤ 90 := by
  have hpi := Real.pi_pos
  have h1 := Real.arcsin_le_pi_div_two A
  unfold SimApp.rad2deg
  have h2 : Real.arcsin A * 180 / Real.pi ≤ Real.pi / 2 * 180 / Real.pi :=
    (div_le_div_right hpi).mpr (mul_le_mul_of_nonneg_right h1 (by norm_num))
  have h3 : Real.pi / 2 * 180 / Real.pi = 90 := by
    field_simp
    ring
  linarith

lemma neg_le_rad2deg_arcsin (A : ℝ) : -90 ≤ SimApp.rad2deg (Real.arcsin A) := by
  have hpi := Real.pi_pos
  have h1 := Real.neg_pi_div_two_le_arcsin A
  unfold SimApp.rad2deg
  have h2 : -(Real.pi / 2) * 180 / Real.pi ≤ Real.arcsin A * 180 / Real.pi :=
    (div_le_div_right hpi).mpr (mul_le_mul_of_nonneg_right h1 (by norm_num))
  have h3 : -(Real.pi / 2) * 180 / Real.pi = -90 := by
    field_simp
    ring
  linarith

lemma losses_nonneg (dc_power : ℝ) (loss_factors : Option (List (String × ℝ))) (r : ℝ)
    (h : SimApp.calculate_system_losses dc_power loss_factors = some r) : 0 ≤ r := by
  simp only [SimApp.calculate_system_losses, Option.bind_eq_some, Option.some.injEq] at h
  obtain ⟨a, -, b, -, c, -, d, -, e, -, f, -, g, -, hr⟩ := h
  rw [← hr]
  exact le_max_right _ _

/-! Theorems settling the claims. -/

/-- Claim C3: for every fixed tuple of inputs and the fixed random seed, two
independent runs of `generate_enhanced_data` produce identical record
sequences, row for row and in the same order.  The incoming positions
`r1`, `r2` of the process-global random stream are arbitrary (i.e. the two
runs are independent); `np.random.seed(42)` resets the stream at the top of
the function, so both runs read the same draws and build the same rows. -/
theorem C3_determinism (p : SimApp.SimParams) (days : ℕ) (nrm uni : ℕ → ℝ)
    (r1 r2 : ℕ) :
    SimApp.generate_enhanced_data p days nrm uni r1 =
      SimApp.generate_enhanced_data p days nrm uni r2 := rfl

/-- Claim C7 counterexample: latitude 100 is out of range, yet
`calculate_solar_position` accepts it and returns a computed position (the
call does not reject; `isSome` holds), refuting the claim that invalid
latitudes are rejected before any position is computed. -/
theorem C7_counterexample :
    (90 : ℝ) < |(100 : ℝ)| ∧
      (SimApp.calculate_solar_position 100 0 1 12).isSome = true :=
  ⟨by norm_num, rfl⟩

/-- Claim C7 amended: `calculate_solar_position` performs no latitude
validation at all: for every latitude (in range or not), longitude, day of
year and hour it returns a computed position. -/
theorem C7_no_validation (latitude longitude : ℝ) (day_of_year : ℕ) (hour : ℝ) :
    (SimApp.calculate_solar_position latitude longitude day_of_year hour).isSome = true :=
  rfl

/-- Claim C9 counterexample: with zero rated power the specific-yield
aggregate silently evaluates to 0 (first conjunct), the very value a normal
zero-production case computes (second conjunct), so a caller cannot
distinguish the undefined ratio from a computed 0. -/
theorem C9_counterexample :
    SimApp.specific_production 5 0 = 0 ∧ SimApp.specific_production 0 3 = 0 := by
  constructor <;> simp [SimApp.specific_production]

/-- Claim C9 amended: the aggregation does not signal degenerate divisors
distinctly: `specific_production` silently returns 0 whenever the rated
power is 0, and `capacity_factor` performs an unguarded division, raising
`ZeroDivisionError` (modelled as `none`) on zero rated power; no
performance-ratio aggregate exists in the source. -/
theorem C9_degenerate_aggregates :
    (∀ total_pv_energy : ℝ, SimApp.specific_production total_pv_energy 0 = 0) ∧
      (∀ (total_pv_energy : ℝ) (analysis_days : ℕ),
        SimApp.capacity_factor total_pv_energy 0 analysis_days = none) := by
  constructor
  · intro E
    simp [SimApp.specific_production]
  · intro E d
    simp [SimApp.capacity_factor]

/-- Claim C10: any module type that is not one of the five keys of
`TEMP_COEFFICIENTS` silently falls back to the coefficient -0.004 and hence
yields exactly the temperature correction of `"monocrystalline"` at the same
ambient temperature and irradiance. -/
theorem C10_unknown_module_fallback (module_type : String)
    (hmt : module_type ∉ ["monocrystalline", "polycrystalline", "thin_film",
      "perc", "bifacial"]) (ambient_temp irradiance : ℝ) :
    SimApp.calculate_temperature_effect ambient_temp irradiance module_type =
      SimApp.calculate_temperature_effect ambient_temp irradiance "monocrystalline" := by
  simp only [List.mem_cons, List.not_mem_nil, or_false, not_or] at hmt
  obtain ⟨h1, h2, h3, h4, h5⟩ := hmt
  simp [SimApp.calculate_temperature_effect, SimApp.TEMP_COEFFICIENTS, List.lookup,
    beq_eq_false_iff_ne.mpr h1, beq_eq_false_iff_ne.mpr h2, beq_eq_false_iff_ne.mpr h3,
    beq_eq_false_iff_ne.mpr h4, beq_eq_false_iff_ne.mpr h5]

/-- Claim C10 witness: the unknown module type "cdte" gets exactly the
monocrystalline correction. -/
theorem C10_unknown_module_fallback_witness :
    ("cdte" ∉ ["monocrystalline", "polycrystalline", "thin_film", "perc", "bifacial"]) ∧
      SimApp.calculate_temperature_effect 30 800 "cdte" =
        SimApp.calculate_temperature_effect 30 800 "monocrystalline" :=
  ⟨by decide, C10_unknown_module_fallback "cdte" (by decide) 30 800⟩

/-- Claim C5: the cell temperature is `ambient + (NOCT - 20) * irradiance / 800`
with the source's NOCT of 45, the derating factor is
`1 + temp_coeff * (cell_temp - 25)` with no floor applied to it (at ambient
300 and irradiance 1000 it is negative), and the DC power
`rated_power * irradiance / 1000 * derating` is floored at 0 (the same inputs
give exactly 0). -/
theorem C5_temperature_model :
    (∀ (ambient_temp irradiance : ℝ) (module_type : String),
      SimApp.calculate_temperature_effect ambient_temp irradiance module_type =
        1 + ((SimApp.TEMP_COEFFICIENTS.lookup module_type).getD (-0.004)) *
          ((ambient_temp + (45 - 20) * irradiance / 800) - 25)) ∧
    (∀ (irradiance temperature panel_power efficiency : ℝ) (module_type : String),
      SimApp.calculate_dc_power irradiance temperature panel_power efficiency module_type =
        max (panel_power * (irradiance / 1000) *
          SimApp.calculate_temperature_effect temperature irradiance module_type) 0) ∧
    SimApp.calculate_temperature_effect 300 1000 "monocrystalline" < 0 ∧
    SimApp.calculate_dc_power 1000 300 100 0.2 "monocrystalline" = 0 := by
  refine ⟨fun a i mt => rfl, fun i t pp e mt => rfl, ?_, ?_⟩
  · simp only [SimApp.calculate_temperature_effect, SimApp.TEMP_COEFFICIENTS, List.lookup]
    norm_num
  · simp only [SimApp.calculate_dc_power, SimApp.calculate_temperature_effect,
      SimApp.TEMP_COEFFICIENTS, List.lookup]
    norm_num

/-- Claim C2 counterexample: the equality "AC power = DC power times the
retention product" does not hold for every `dc_power`: at `dc_power = -1000`
with the default loss factors the source's final `max(power, 0)` floor
returns 0, while the claimed product is negative. -/
theorem C2_counterexample :
    SimApp.calculate_system_losses (-1000) (some SimApp.default_loss_factors) = some 0 ∧
      (0 : ℝ) ≠ (-1000) * (1 - 0.02) * (1 - 0.02) * (1 - 0.03) * (1 - 0.02) * 0.96 *
        (1 - 0.01) * (1 - 0.01) := by
  constructor
  · have l1 : SimApp.default_loss_factors.lookup "dc_wiring_loss" = some 0.02 := rfl
    have l2 : SimApp.default_loss_factors.lookup "soiling_loss" = some 0.02 := rfl
    have l3 : SimApp.default_loss_factors.lookup "shading_loss" = some 0.03 := rfl
    have l4 : SimApp.default_loss_factors.lookup "mismatch_loss" = some 0.02 := rfl
    have l5 : SimApp.default_loss_factors.lookup "inverter_efficiency" = some 0.96 := rfl
    have l6 : SimApp.default_loss_factors.lookup "ac_wiring_loss" = some 0.01 := rfl
    have l7 : SimApp.default_loss_factors.lookup "availability_loss" = some 0.01 := rfl
    simp only [SimApp.calculate_system_losses, Option.getD_some, l1, l2, l3, l4, l5, l6, l7,
      Option.some_bind, Option.some.injEq]
    apply max_eq_right
    norm_num
  · norm_num

/-- Claim C2 amended: for every `dc_power >= 0` and every loss-factor mapping
supplying the seven recognized categories, with each loss at most 1 and a
non-negative inverter efficiency, the AC power equals `dc_power` multiplied
once by each retention factor; for negative DC power the final floor breaks
the equality, and with DC = 1000 W and the default losses the value is
exactly 858.99687439104 W (roughly 859.0 W, not 859.5 W). -/
theorem C2_loss_chain (dc_power dcw soil shade mismatch invEff acw avail : ℝ)
    (lf : List (String × ℝ))
    (hdc : 0 ≤ dc_power)
    (h1 : lf.lookup "dc_wiring_loss" = some dcw)
    (h2 : lf.lookup "soiling_loss" = some soil)
    (h3 : lf.lookup "shading_loss" = some shade)
    (h4 : lf.lookup "mismatch_loss" = some mismatch)
    (h5 : lf.lookup "inverter_efficiency" = some invEff)
    (h6 : lf.lookup "ac_wiring_loss" = some acw)
    (h7 : lf.lookup "availability_loss" = some avail)
    (hb1 : dcw ≤ 1) (hb2 : soil ≤ 1) (hb3 : shade ≤ 1) (hb4 : mismatch ≤ 1)
    (hb5 : 0 ≤ invEff) (hb6 : acw ≤ 1) (hb7 : avail ≤ 1) :
    SimApp.calculate_system_losses dc_power (some lf) =
      some (dc_power * (1 - dcw) * (1 - soil) * (1 - shade) * (1 - mismatch) *
        invEff * (1 - acw) * (1 - avail)) := by
  have g1 : (0 : ℝ) ≤ 1 - dcw := by linarith
  have g2 : (0 : ℝ) ≤ 1 - soil := by linarith
  have g3 : (0 : ℝ) ≤ 1 - shade := by linarith
  have g4 : (0 : ℝ) ≤ 1 - mismatch := by linarith
  have g6 : (0 : ℝ) ≤ 1 - acw := by linarith
  have g7 : (0 : ℝ) ≤ 1 - avail := by linarith
  have hp : 0 ≤ dc_power * (1 - dcw) * (1 - soil) * (1 - shade) * (1 - mismatch) *
      invEff * (1 - acw) * (1 - avail) :=
    mul_nonneg (mul_nonneg (mul_nonneg (mul_nonneg (mul_nonneg (mul_nonneg
      (mul_nonneg hdc g1) g2) g3) g4) hb5) g6) g7
  simp only [SimApp.calculate_system_losses, Option.getD_some, h1, h2, h3, h4, h5, h6, h7,
    Option.some_bind]
  rw [max_eq_left hp]

/-- Claim C2 witness: DC = 1000 W with the default loss dictionary yields
exactly 858.99687439104 W. -/
theorem C2_loss_chain_witness :
    SimApp.calculate_system_losses 1000 (some SimApp.default_loss_factors) =
      some 858.99687439104 := by
  have h := C2_loss_chain 1000 0.02 0.02 0.03 0.02 0.96 0.01 0.01
    SimApp.default_loss_factors (by norm_num) rfl rfl rfl rfl rfl rfl rfl
    (by norm_num) (by norm_num) (by norm_num) (by norm_num) (by norm_num)
    (by norm_num) (by norm_num)
  rw [h]
  norm_num

/-- Claim C8 counterexample: a loss mapping containing the unrecognized key
"tracker_loss" is not rejected: `calculate_system_losses` accepts it and
computes an AC power (the same value the recognized entries give). -/
theorem C8_counterexample :
    SimApp.calculate_system_losses 1000
      (some (("tracker_loss", 0.5) :: SimApp.default_loss_factors)) =
      some 858.99687439104 := by
  have l1 : (("tracker_loss", (0.5 : ℝ)) :: SimApp.default_loss_factors).lookup
      "dc_wiring_loss" = some 0.02 := rfl
  have l2 : (("tracker_loss", (0.5 : ℝ)) :: SimApp.default_loss_factors).lookup
      "soiling_loss" = some 0.02 := rfl
  have l3 : (("tracker_loss", (0.5 : ℝ)) :: SimApp.default_loss_factors).lookup
      "shading_loss" = some 0.03 := rfl
  have l4 : (("tracker_loss", (0.5 : ℝ)) :: SimApp.default_loss_factors).lookup
      "mismatch_loss" = some 0.02 := rfl
  have l5 : (("tracker_loss", (0.5 : ℝ)) :: SimApp.default_loss_factors).lookup
      "inverter_efficiency" = some 0.96 := rfl
  have l6 : (("tracker_loss", (0.5 : ℝ)) :: SimApp.default_loss_factors).lookup
      "ac_wiring_loss" = some 0.01 := rfl
  have l7 : (("tracker_loss", (0.5 : ℝ)) :: SimApp.default_loss_factors).lookup
      "availability_loss" = some 0.01 := rfl
  simp only [SimApp.calculate_system_losses, Option.getD_some, l1, l2, l3, l4, l5, l6, l7,
    Option.some_bind]
  rw [max_eq_left (by norm_num)]
  norm_num

/-- Claim C8 amended: `calculate_system_losses` never validates keys: every
mapping that supplies the seven recognized loss categories is accepted and
an AC power is computed, regardless of how many unrecognized keys the
mapping also contains (a `KeyError` arises only when a recognized key is
missing). -/
theorem C8_unrecognized_keys_ignored (dc_power : ℝ) (lf : List (String × ℝ))
    (dcw soil shade mismatch invEff acw avail : ℝ)
    (h1 : lf.lookup "dc_wiring_loss" = some dcw)
    (h2 : lf.lookup "soiling_loss" = some soil)
    (h3 : lf.lookup "shading_loss" = some shade)
    (h4 : lf.lookup "mismatch_loss" = some mismatch)
    (h5 : lf.lookup "inverter_efficiency" = some invEff)
    (h6 : lf.lookup "ac_wiring_loss" = some acw)
    (h7 : lf.lookup "availability_loss" = some avail) :
    (SimApp.calculate_system_losses dc_power (some lf)).isSome = true := by
  simp only [SimApp.calculate_system_losses, Option.getD_some, h1, h2, h3, h4, h5, h6, h7,
    Option.some_bind]
  rfl

/-- Claim C8 witness: a mapping with the extra unrecognized key "aux_loss"
is accepted. -/
theorem C8_unrecognized_keys_ignored_witness :
    (SimApp.calculate_system_losses 500
      (some (SimApp.default_loss_factors ++ [("aux_loss", 0.1)]))).isSome = true :=
  C8_unrecognized_keys_ignored 500 (SimApp.default_loss_factors ++ [("aux_loss", 0.1)])
    0.02 0.02 0.03 0.02 0.96 0.01 0.01 rfl rfl rfl rfl rfl rfl rfl

/-- Claim C4: for every latitude in [-90, 90] (the formulas hold for every
latitude; the bound is the claim's hypothesis), `calculate_solar_position`
returns declination `23.45 * sin(360 * (284 + day_of_year) / 365)` degrees
and elevation `asin(sin(dec) * sin(lat) + cos(dec) * cos(lat) *
cos(hour_angle))` with hour angle `15 * (hour - 12)` degrees, and the
returned elevation lies in [-90, 90] degrees. -/
theorem C4_solar_position (latitude longitude : ℝ) (day_of_year : ℕ) (hour : ℝ)
    (hlat : |latitude| ≤ 90) :
    ∃ pos : SimApp.SolarPos,
      SimApp.calculate_solar_position latitude longitude day_of_year hour = some pos ∧
      pos.declination =
        23.45 * Real.sin (SimApp.deg2rad (360 * (284 + (day_of_year : ℝ)) / 365)) ∧
      pos.elevation = SimApp.rad2deg (Real.arcsin
        (Real.sin (SimApp.deg2rad
            (23.45 * Real.sin (SimApp.deg2rad (360 * (284 + (day_of_year : ℝ)) / 365)))) *
          Real.sin (SimApp.deg2rad latitude) +
         Real.cos (SimApp.deg2rad
            (23.45 * Real.sin (SimApp.deg2rad (360 * (284 + (day_of_year : ℝ)) / 365)))) *
          Real.cos (SimApp.deg2rad latitude) *
          Real.cos (SimApp.deg2rad (15 * (hour - 12))))) ∧
      -90 ≤ pos.elevation ∧ pos.elevation ≤ 90 := by
  refine ⟨_, rfl, ?_, ?_, ?_, ?_⟩
  · exact SimApp.rad2deg_deg2rad _
  · rfl
  · exact neg_le_rad2deg_arcsin _
  · exact rad2deg_arcsin_le _

/-- Claim C4 witness: the position at latitude 46.2, longitude 6.15, day of
year 172, hour 12 satisfies the formulas and the elevation bound. -/
theorem C4_solar_position_witness :
    |(46.2 : ℝ)| ≤ 90 ∧
      ∃ pos : SimApp.SolarPos,
        SimApp.calculate_solar_position 46.2 6.15 172 12 = some pos ∧
        pos.declination =
          23.45 * Real.sin (SimApp.deg2rad (360 * (284 + ((172 : ℕ) : ℝ)) / 365)) ∧
        pos.elevation = SimApp.rad2deg (Real.arcsin
          (Real.sin (SimApp.deg2rad
              (23.45 * Real.sin (SimApp.deg2rad (360 * (284 + ((172 : ℕ) : ℝ)) / 365)))) *
            Real.sin (SimApp.deg2rad 46.2) +
           Real.cos (SimApp.deg2rad
              (23.45 * Real.sin (SimApp.deg2rad (360 * (284 + ((172 : ℕ) : ℝ)) / 365)))) *
            Real.cos (SimApp.deg2rad 46.2) *
            Real.cos (SimApp.deg2rad (15 * ((12 : ℝ) - 12))))) ∧
        -90 ≤ pos.elevation ∧ pos.elevation ≤ 90 :=
  have habs : |(46.2 : ℝ)| ≤ 90 := by
    rw [abs_of_nonneg (by norm_num : (0 : ℝ) ≤ 46.2)]
    norm_num
  ⟨habs, C4_solar_position 46.2 6.15 172 12 habs⟩

/-- Claim C6: the plane-of-array irradiance, the DC power and every AC power
the loss chain returns are non-negative, and the beam component is built
from the cosine of incidence floored at zero, so a negative cosine
propagates as zero. -/
theorem C6_nonneg (ghi dni dhi solar_elevation solar_azimuth surface_tilt
    surface_azimuth irradiance temperature panel_power efficiency : ℝ)
    (module_type : String) (dc_power : ℝ)
    (loss_factors : Option (List (String × ℝ))) :
    0 ≤ SimApp.calculate_irradiance_on_tilted_surface ghi dni dhi solar_elevation
        solar_azimuth surface_tilt surface_azimuth ∧
    0 ≤ SimApp.calculate_dc_power irradiance temperature panel_power efficiency
        module_type ∧
    (SimApp.calculate_system_losses dc_power loss_factors).elim True (fun r => 0 ≤ r) ∧
    SimApp.direct_tilted dni solar_elevation solar_azimuth surface_tilt surface_azimuth =
      dni * max (SimApp.cos_incidence solar_elevation solar_azimuth surface_tilt
        surface_azimuth) 0 ∧
    0 ≤ max (SimApp.cos_incidence solar_elevation solar_azimuth surface_tilt
        surface_azimuth) 0 := by
  refine ⟨le_max_right _ _, le_max_right _ _, ?_, rfl, le_max_right _ _⟩
  cases h : SimApp.calculate_system_losses dc_power loss_factors with
  | none => trivial
  | some r => exact losses_nonneg dc_power loss_factors r h

lemma app_irradiance_fst_of_nonpos (p : SimApp.SimParams) (uni : ℕ → ℝ)
    (declination : ℝ) (hour idx : ℕ)
    (h : SimApp.app_elevation p.lat declination hour ≤ 0) :
    (SimApp.app_irradiance p uni declination hour idx).1 = 0 := by
  unfold SimApp.app_irradiance
  split_ifs with h1 h2
  · exact absurd h2 (not_lt.mpr h)
  · rfl
  · rfl

lemma app_pv_power_of_zero (p : SimApp.SimParams) (temp : ℝ) :
    SimApp.app_pv_power p 0 temp = 0 := by
  simp [SimApp.app_pv_power]

/-- Claim C1 counterexample: `calculate_irradiance_on_tilted_surface` does
not return 0 for non-positive solar elevation: at elevation -10 with
dhi = 100 and tilt 0 the diffuse term alone makes the result 100, refuting
"returns 0 whenever solar_elevation <= 0 for every ghi, dni, dhi, tilt and
azimuth". -/
theorem C1_counterexample :
    (-10 : ℝ) ≤ 0 ∧
      SimApp.calculate_irradiance_on_tilted_surface 0 0 100 (-10) 0 0 0 = 100 ∧
      (100 : ℝ) ≠ 0 := by
  refine ⟨by norm_num, ?_, by norm_num⟩
  unfold SimApp.calculate_irradiance_on_tilted_surface SimApp.direct_tilted
    SimApp.diffuse_tilted SimApp.ground_reflected
  have h0 : SimApp.deg2rad 0 = 0 := by
    unfold SimApp.deg2rad
    ring
  rw [h0]
  simp only [Real.cos_zero, zero_mul, sub_self, mul_zero, zero_div, add_zero, zero_add]
  rw [max_eq_left (by norm_num)]
  norm_num

/-- Claim C1 amended: in the simulation loop `generate_enhanced_data`, every
timestep whose solar elevation is at or below 0 records irradiance exactly 0
and PV power exactly 0, for all parameter values and random draws (the
zeroing lives in the loop, src/app.py lines 207-228 and 231-247, not in
`calculate_irradiance_on_tilted_surface`). -/
theorem C1_night_zero (p : SimApp.SimParams) (nrm uni : ℕ → ℝ) (battery_kwh : ℝ)
    (day : ℕ) (temp_base declination : ℝ) (hour : ℕ) (st : SimApp.SimState)
    (h : SimApp.app_elevation p.lat declination hour ≤ 0) :
    ∃ row : SimApp.SimRecord,
      (SimApp.hourStep p nrm uni battery_kwh day temp_base declination hour st).recs =
        st.recs ++ [row] ∧ row.irradiance = 0 ∧ row.pv_power = 0 := by
  have hirr := app_irradiance_fst_of_nonpos p uni declination hour (st.idx + 1) h
  unfold SimApp.hourStep
  split_ifs with hb
  · exact ⟨_, rfl, by simp [hirr, SimApp.round1_zero],
      by simp [hirr, app_pv_power_of_zero, SimApp.round1_zero]⟩
  · exact ⟨_, rfl, by simp [hirr, SimApp.round1_zero],
      by simp [hirr, app_pv_power_of_zero, SimApp.round1_zero]⟩

/-- Concrete parameter tuple used by the claim C1 witness. -/
def C1_params : SimApp.SimParams :=
  { lat := 0, tilt := 20, azimuth := 0, total_pwr := 12.495, daily_need := 6.6,
    batt_enabled := false, batt_capacity := 0, min_soc_pct := 20, max_soc_pct := 95,
    total_stored_energy := 0, temp_coeff := -0.4, dc_wiring_loss := 1.5,
    module_mismatch := 2, soiling_loss := 2, converter_efficiency := 95,
    load_profile := "Constant" }

/-- Concrete loop state used by the claim C1 witness. -/
def C1_state : SimApp.SimState := { soc := 0, idx := 0, recs := [] }

/-- Claim C1 witness: at the equator at hour 18 the computed elevation is 0,
and the row the loop appends for that hour has irradiance 0 and PV power 0. -/
theorem C1_night_zero_witness :
    SimApp.app_elevation C1_params.lat 10 18 ≤ 0 ∧
      ∃ row : SimApp.SimRecord,
        (SimApp.hourStep C1_params (fun _ => 0) (fun _ => 0) 0 0 0 10 18 C1_state).recs =
          C1_state.recs ++ [row] ∧ row.irradiance = 0 ∧ row.pv_power = 0 :=
  have h90 : SimApp.deg2rad (15 * (((18 : ℕ) : ℝ) - 12)) = Real.pi / 2 := by
    unfold SimApp.deg2rad
    push_cast
    ring
  have helev : SimApp.app_elevation C1_params.lat 10 18 ≤ 0 := by
    show SimApp.app_elevation 0 10 18 ≤ 0
    unfold SimApp.app_elevation
    rw [h90]
    have h0 : SimApp.deg2rad 0 = 0 := by
      unfold SimApp.deg2rad
      ring
    rw [h0]
    simp
  ⟨helev, C1_night_zero C1_params (fun _ => 0) (fun _ => 0) 0 0 0 10 18 C1_state helev⟩

end
